import Mathlib

/-!
A verification development for the unity-egui bridge (Rust crate `uegui` /
`egui_unity`).  The definitions below are a shallow embedding of the code in
`src/bridge.rs`, `src/input.rs`, `src/lib.rs` and `demo/src/lib.rs`:

* `u64` arithmetic is modelled on `Nat` with explicit `% 2 ^ 64`;
* Rust `f32`/`f64` scalar fields are modelled as rationals (`ℚ`): the code
  only copies them and compares them against `0`, never does float
  arithmetic on them;
* a Rust panic (`unwrap`, `unimplemented!`) is modelled by the `Outcome`
  type below; fallible protobuf decoding (the external `protobuf` crate's
  `merge_from_bytes`) is modelled by an `Except` parameter;
* the opaque external collaborators (the egui `Context`, the `App` trait
  object) are modelled by quantifying over the values they produce during
  one frame (`EngineFrame`, the application's `Outcome`);
* host callbacks (the `UnityInitializer` function-pointer table) are
  modelled by an explicit trace of `Call`s; raw pixel pointers are not
  carried in the trace, only the scalar arguments the wrappers compute.
-/

namespace UnityEgui

/-- Result of running a piece of Rust code that may panic: either the value,
or an unwound panic carrying its message. -/
inductive Outcome (α : Type) where
  | ok : α → Outcome α
  | panicked : String → Outcome α
  deriving DecidableEq, Repr

/-- `egui::TextureId`: engine-managed or user-provided numeric id (`u64`). -/
inductive TextureId where
  | Managed : Nat → TextureId
  | User : Nat → TextureId
  deriving DecidableEq, Repr

/-- `texture_id_to_u64` from `src/bridge.rs` (lines 57–62).  The Rust source
reads `id << 1 + 1` in the `User` arm; Rust gives `+` higher precedence than
`<<`, so this is `id << (1 + 1)`, i.e. a shift by two.  `u64` shifts discard
the bits shifted out, hence the `% 2 ^ 64`. -/
def texture_id_to_u64 (id : TextureId) : Nat :=
  match id with
  | .Managed id => (id <<< 1) % 2 ^ 64
  | .User id => (id <<< (1 + 1)) % 2 ^ 64

/-- Wire (protobuf) `TextureId` message from the generated `proto::output`
module (absent from `src/`; its shape is taken from the field accesses in
`src/lib.rs`): a `tag` plus the `managed` and `user` numeric fields, all
defaulting to zero. -/
structure PbTextureId where
  tag : Nat := 0
  managed : Nat := 0
  user : Nat := 0
  deriving DecidableEq, Repr

/-- `texture_id_from_native_to_pb` from `src/lib.rs` (lines 208–221). -/
def texture_id_from_native_to_pb (tid : TextureId) : PbTextureId :=
  match tid with
  | .Managed id => { tag := 1, managed := id }
  | .User id => { tag := 2, user := id }

end UnityEgui

namespace UnityEgui

/-- Wire event-type enum `proto::input::EventType`.  The generated proto
module is not part of `src/`; the variant list is exactly the one matched in
`event_from_pb_to_native` (`src/input.rs` lines 99–155). -/
inductive EventType where
  | ET_NONE | COPY | CUT | PASTE | TEXT | KEY
  | POINTER_MOVED | POINTER_BUTTON | POINTER_GONE
  | SCROLL | ZOOM | COMPOSITION_START | COMPOSITION_UPDATE | TOUCH
  deriving DecidableEq, Repr

/-- Wire key-code enum `proto::input::KeyType` (variant list from the match
in `src/input.rs` lines 11–86). -/
inductive KeyType where
  | KT_NONE
  | ArrowDown | ArrowLeft | ArrowRight | ArrowUp
  | Escape | Tab | Backspace | Enter | Space
  | Insert | Delete | Home | End | PageUp | PageDown
  | Num0 | Num1 | Num2 | Num3 | Num4 | Num5 | Num6 | Num7 | Num8 | Num9
  | A | B | C | D | E | F | G | H | I | J | K | L | M
  | N | O | P | Q | R | S | T | U | V | W | X | Y | Z
  | F1 | F2 | F3 | F4 | F5 | F6 | F7 | F8 | F9 | F10
  | F11 | F12 | F13 | F14 | F15 | F16 | F17 | F18 | F19 | F20
  deriving DecidableEq, Repr

/-- Native `egui::Key` (external egui type; variants as used by the mapping
in `src/input.rs`). -/
inductive Key where
  | ArrowDown | ArrowLeft | ArrowRight | ArrowUp
  | Escape | Tab | Backspace | Enter | Space
  | Insert | Delete | Home | End | PageUp | PageDown
  | Num0 | Num1 | Num2 | Num3 | Num4 | Num5 | Num6 | Num7 | Num8 | Num9
  | A | B | C | D | E | F | G | H | I | J | K | L | M
  | N | O | P | Q | R | S | T | U | V | W | X | Y | Z
  | F1 | F2 | F3 | F4 | F5 | F6 | F7 | F8 | F9 | F10
  | F11 | F12 | F13 | F14 | F15 | F16 | F17 | F18 | F19 | F20
  deriving DecidableEq, Repr

/-- Wire pointer-button enum `proto::input::ButtonType` (variant list from
`src/input.rs` lines 88–97). -/
inductive ButtonType where
  | BT_NONE | PRIMARY | SECONDARY | MIDDLE | EXTRA1 | EXTRA2
  deriving DecidableEq, Repr

/-- Native `egui::PointerButton`. -/
inductive PointerButton where
  | Primary | Secondary | Middle | Extra1 | Extra2
  deriving DecidableEq, Repr

/-- `key_type_from_pb_to_native` from `src/input.rs` (lines 11–86). -/
def key_type_from_pb_to_native (t : KeyType) : Option Key :=
  match t with
  | .KT_NONE => none
  | .ArrowDown => some .ArrowDown
  | .ArrowLeft => some .ArrowLeft
  | .ArrowRight => some .ArrowRight
  | .ArrowUp => some .ArrowUp
  | .Escape => some .Escape
  | .Tab => some .Tab
  | .Backspace => some .Backspace
  | .Enter => some .Enter
  | .Space => some .Space
  | .Insert => some .Insert
  | .Delete => some .Delete
  | .Home => some .Home
  | .End => some .End
  | .PageUp => some .PageUp
  | .PageDown => some .PageDown
  | .Num0 => some .Num0
  | .Num1 => some .Num1
  | .Num2 => some .Num2
  | .Num3 => some .Num3
  | .Num4 => some .Num4
  | .Num5 => some .Num5
  | .Num6 => some .Num6
  | .Num7 => some .Num7
  | .Num8 => some .Num8
  | .Num9 => some .Num9
  | .A => some .A
  | .B => some .B
  | .C => some .C
  | .D => some .D
  | .E => some .E
  | .F => some .F
  | .G => some .G
  | .H => some .H
  | .I => some .I
  | .J => some .J
  | .K => some .K
  | .L => some .L
  | .M => some .M
  | .N => some .N
  | .O => some .O
  | .P => some .P
  | .Q => some .Q
  | .R => some .R
  | .S => some .S
  | .T => some .T
  | .U => some .U
  | .V => some .V
  | .W => some .W
  | .X => some .X
  | .Y => some .Y
  | .Z => some .Z
  | .F1 => some .F1
  | .F2 => some .F2
  | .F3 => some .F3
  | .F4 => some .F4
  | .F5 => some .F5
  | .F6 => some .F6
  | .F7 => some .F7
  | .F8 => some .F8
  | .F9 => some .F9
  | .F10 => some .F10
  | .F11 => some .F11
  | .F12 => some .F12
  | .F13 => some .F13
  | .F14 => some .F14
  | .F15 => some .F15
  | .F16 => some .F16
  | .F17 => some .F17
  | .F18 => some .F18
  | .F19 => some .F19
  | .F20 => some .F20

/-- `button_type_from_pb_to_native` from `src/input.rs` (lines 88–97). -/
def button_type_from_pb_to_native (bt : ButtonType) : Option PointerButton :=
  match bt with
  | .BT_NONE => none
  | .PRIMARY => some .Primary
  | .SECONDARY => some .Secondary
  | .MIDDLE => some .Middle
  | .EXTRA1 => some .Extra1
  | .EXTRA2 => some .Extra2

end UnityEgui

namespace UnityEgui

/-- Wire `proto::common::Pos2` (`f32` coordinates, modelled as `ℚ`). -/
structure PbPos2 where
  x : ℚ := 0
  y : ℚ := 0
  deriving DecidableEq, Repr

/-- Wire `proto::common::Rect`: two optional corner points. -/
structure PbRect where
  min : Option PbPos2 := none
  max : Option PbPos2 := none
  deriving DecidableEq, Repr

/-- Wire `proto::input::Modifiers`. -/
structure PbModifiers where
  alt : Bool := false
  ctrl : Bool := false
  shift : Bool := false
  mac_cmd : Bool := false
  command : Bool := false
  deriving DecidableEq, Repr

/-- Native `egui::Modifiers`. -/
structure Modifiers where
  alt : Bool := false
  ctrl : Bool := false
  shift : Bool := false
  mac_cmd : Bool := false
  command : Bool := false
  deriving DecidableEq, Repr

/-- Native `egui::Pos2`. -/
structure Pos2 where
  x : ℚ := 0
  y : ℚ := 0
  deriving DecidableEq, Repr

/-- Native `egui::Vec2`. -/
structure Vec2 where
  x : ℚ := 0
  y : ℚ := 0
  deriving DecidableEq, Repr

/-- Native `egui::Rect`. -/
structure EguiRect where
  min : Pos2 := {}
  max : Pos2 := {}
  deriving DecidableEq, Repr

/-- Nested key-event message of `proto::input::Event`.  The `key` sub-field
is the wire enum: `none` models `enum_value().is_err()` (an unrecognized
numeric tag on the wire). -/
structure PbKeyEvent where
  key : Option KeyType := none
  pressed : Bool := false
  modifiers : PbModifiers := {}
  deriving DecidableEq, Repr

/-- Nested pointer-button message of `proto::input::Event`.  `button` is the
wire enum (`none` = unrecognized tag); `pos` is a `MessageField` that derefs
to the default `Pos2` when unset. -/
structure PbPointerButton where
  button : Option ButtonType := none
  pos : Option PbPos2 := none
  pressed : Bool := false
  modifiers : PbModifiers := {}
  deriving DecidableEq, Repr

/-- Wire `proto::input::Event`.  `et` models `e.et.enum_value()`: `none` is
an unrecognized wire tag (`is_err()`), `some t` a recognized variant. -/
structure PbEvent where
  et : Option EventType := none
  paste : String := ""
  text : String := ""
  key : Option PbKeyEvent := none
  pointer_moved : Option PbPos2 := none
  pointer_button : Option PbPointerButton := none
  scroll : Option PbPos2 := none
  zoom : ℚ := 0
  composition_update : String := ""
  deriving DecidableEq, Repr

/-- Wire `proto::input::Input` (field shapes from the accesses in
`parse_input`, `src/input.rs` lines 186–215, and `begin`, `src/lib.rs` lines
31–57).  `time` and `max_texture_side` are wire integers, `pixels_per_point`
and `predicted_dt` are `f32`s modelled as `ℚ`. -/
structure PbInput where
  screen_rect : Option PbRect := none
  has_focus : Bool := false
  time : Int := 0
  pixels_per_point : ℚ := 0
  max_texture_side : Int := 0
  modifier : Option PbModifiers := none
  predicted_dt : ℚ := 0
  events : List PbEvent := []
  deriving DecidableEq, Repr

/-- Native `egui::Event` (the constructors produced by
`event_from_pb_to_native`). -/
inductive EguiEvent where
  | Copy
  | Cut
  | Paste (s : String)
  | Text (s : String)
  | Key (key : Key) (pressed : Bool) (modifiers : Modifiers)
  | PointerMoved (pos : Pos2)
  | PointerButton (pos : Pos2) (button : PointerButton) (pressed : Bool)
      (modifiers : Modifiers)
  | PointerGone
  | Scroll (delta : Vec2)
  | Zoom (factor : ℚ)
  | CompositionStart
  | CompositionUpdate (s : String)
  deriving DecidableEq, Repr

/-- `modifier_from_pb_to_native` from `src/input.rs` (lines 157–165). -/
def modifier_from_pb_to_native (m : PbModifiers) : Modifiers :=
  { alt := m.alt, ctrl := m.ctrl, shift := m.shift,
    mac_cmd := m.mac_cmd, command := m.command }

/-- `pos2_from_pb_to_native` from `src/input.rs` (lines 182–184). -/
def pos2_from_pb_to_native (pos : PbPos2) : Pos2 :=
  { x := pos.x, y := pos.y }

/-- `rect_from_pb_to_native` from `src/input.rs` (lines 167–180):
unset corners fall back to the default `Pos2`. -/
def rect_from_pb_to_native (rect : PbRect) : EguiRect :=
  { min := (rect.min.map pos2_from_pb_to_native).getD {},
    max := (rect.max.map pos2_from_pb_to_native).getD {} }

/-- `event_from_pb_to_native` from `src/input.rs` (lines 99–155; the copy in
`src/lib.rs` lines 59–196 inlines the key/button tables but is otherwise
identical).  The `Option.map …|>.getD` chains mirror the Rust
`.map(...).unwrap_or_default()` chains; `(e.key.getD {})` mirrors the
`MessageField` deref (default message when unset) used for
`e.key.pressed`, `e.key.modifiers` and `e.pointer_button.pos`. -/
def event_from_pb_to_native (e : PbEvent) : Option EguiEvent :=
  match e.et with
  | none => none
  | some t =>
    match t with
    | .ET_NONE => none
    | .COPY => some .Copy
    | .CUT => some .Cut
    | .PASTE => some (.Paste e.paste)
    | .TEXT => some (.Text e.text)
    | .KEY =>
      ((e.key.map fun k =>
          (k.key.map key_type_from_pb_to_native).getD none).getD none).map
        fun kt =>
          EguiEvent.Key kt (e.key.getD {}).pressed
            (modifier_from_pb_to_native (e.key.getD {}).modifiers)
    | .POINTER_MOVED =>
      (e.pointer_moved.map pos2_from_pb_to_native).map .PointerMoved
    | .POINTER_BUTTON =>
      ((e.pointer_button.map fun b =>
          (b.button.map button_type_from_pb_to_native).getD none).getD none).map
        fun bt =>
          EguiEvent.PointerButton
            (pos2_from_pb_to_native ((e.pointer_button.getD {}).pos.getD {}))
            bt (e.pointer_button.getD {}).pressed
            (modifier_from_pb_to_native (e.pointer_button.getD {}).modifiers)
    | .POINTER_GONE => some .PointerGone
    | .SCROLL =>
      (e.scroll.map pos2_from_pb_to_native).map fun pos =>
        EguiEvent.Scroll { x := pos.x, y := pos.y }
    | .ZOOM => some (.Zoom e.zoom)
    | .COMPOSITION_START => some .CompositionStart
    | .COMPOSITION_UPDATE => some (.CompositionUpdate e.composition_update)
    | .TOUCH => none

/-- Native `egui::RawInput` (external egui type; the fields the decoder
assigns).  `RawInput::default()` has `has_focus = true` and
`predicted_dt = 1/60`; both are overwritten unconditionally by the
decoder. -/
structure RawInput where
  screen_rect : Option EguiRect := none
  has_focus : Bool := true
  time : Option Int := none
  pixels_per_point : Option ℚ := none
  max_texture_side : Option Nat := none
  modifiers : Modifiers := {}
  predicted_dt : ℚ := 1 / 60
  events : List EguiEvent := []
  deriving DecidableEq, Repr

end UnityEgui

namespace UnityEgui

/-- The event loop of the decoder (`src/input.rs` lines 206–213 and
`src/lib.rs` lines 51–55): push each translatable event, skip the rest. -/
def pushEvents (acc : List EguiEvent) (events : List PbEvent) : List EguiEvent :=
  events.foldl
    (fun acc e =>
      match event_from_pb_to_native e with
      | some ev => acc ++ [ev]
      | none => acc)
    acc

/-- The field-by-field construction of `egui::RawInput` from the decoded
wire message, shared verbatim by `parse_input` (`src/input.rs` lines
190–214) and `begin` (`src/lib.rs` lines 35–55). -/
def rawInputOfPb (pb : PbInput) : RawInput :=
  let input : RawInput := {}
  let input := { input with screen_rect := pb.screen_rect.map rect_from_pb_to_native }
  let input := { input with has_focus := pb.has_focus }
  let input := if pb.time > 0 then { input with time := some pb.time } else input
  let input :=
    if pb.pixels_per_point > 0 then
      { input with pixels_per_point := some pb.pixels_per_point }
    else input
  let input :=
    if pb.max_texture_side > 0 then
      { input with max_texture_side := some pb.max_texture_side.toNat }
    else input
  let input :=
    if pb.modifier.isSome then
      { input with modifiers := modifier_from_pb_to_native (pb.modifier.getD {}) }
    else input
  let input := { input with predicted_dt := pb.predicted_dt }
  { input with events := pushEvents input.events pb.events }

/-- `parse_input` from `src/input.rs` (lines 186–215).  The external
protobuf `merge_from_bytes` step is the parameter: `Except.error msg` is a
buffer that is not a well-formed wire `Input` message.  The source applies
`.unwrap()` to that result, so a decode failure is a panic, not a returned
error value (even though `UnityContext::update` in `src/bridge.rs` line 92
applies the `?` operator to this call as if it returned a `Result`). -/
def parse_input (decoded : Except String PbInput) : Outcome RawInput :=
  match decoded with
  | .error e => .panicked e
  | .ok pb => .ok (rawInputOfPb pb)

end UnityEgui

namespace UnityEgui

/-- `egui::TextureFilter`. -/
inductive TextureFilter where
  | Nearest | Linear
  deriving DecidableEq, Repr

/-- `egui::ImageData`: RGBA color image or font-coverage image.  Only the
sizes are carried; the pixel payloads cross the boundary as raw pointers
(and, for fonts, through the engine's own `srgba_pixels` conversion) and are
not modelled. -/
inductive ImageData where
  | Color (size : Nat × Nat)
  | Font (size : Nat × Nat)
  deriving DecidableEq, Repr

/-- `egui::epaint::ImageDelta` (the fields read by the encoders).  In the
egui version used by `src/bridge.rs` the filter lives at
`image.options.minification`; `src/lib.rs` reads it as `texture.filter`. -/
structure ImageDelta where
  minification : TextureFilter := .Nearest
  pos : Option (Nat × Nat) := none
  image : ImageData := .Color (0, 0)
  deriving DecidableEq, Repr

/-- `egui::epaint::Color32` as read vertex-wise by the wire encoder. -/
structure Color32 where
  r : Nat := 0
  g : Nat := 0
  b : Nat := 0
  a : Nat := 0
  deriving DecidableEq, Repr

/-- `egui::epaint::Vertex`. -/
structure Vertex where
  pos : Pos2 := {}
  uv : Pos2 := {}
  color : Color32 := {}
  deriving DecidableEq, Repr

/-- `egui::epaint::Mesh`. -/
structure Mesh where
  texture_id : TextureId := .Managed 0
  vertices : List Vertex := []
  indices : List Nat := []
  deriving DecidableEq, Repr

/-- `egui::epaint::Primitive`: a tessellated mesh or an unsupported custom
paint callback (the callback's payload is opaque and never inspected). -/
inductive Primitive where
  | Mesh (m : Mesh)
  | Callback
  deriving DecidableEq, Repr

/-- `egui::ClippedPrimitive`. -/
structure ClippedPrimitive where
  clip_rect : EguiRect := {}
  primitive : Primitive := .Mesh {}
  deriving DecidableEq, Repr

/-- `egui::WidgetType` (external egui enum; the code discriminates only
`TextEdit`). -/
inductive WidgetType where
  | Label | Hyperlink | TextEdit | Button | Checkbox | RadioButton
  | SelectableLabel | ComboBox | Slider | DragValue | ColorButton
  | ImageButton | CollapsingHeader | Other
  deriving DecidableEq, Repr

/-- `egui::WidgetInfo` (the two fields read by `update_platform`). -/
structure WidgetInfo where
  typ : WidgetType := .Other
  current_text_value : Option String := none
  deriving DecidableEq, Repr

/-- `egui::output::OutputEvent`: every constructor carries a `WidgetInfo`. -/
inductive OutputEvent where
  | Clicked (info : WidgetInfo)
  | DoubleClicked (info : WidgetInfo)
  | FocusGained (info : WidgetInfo)
  | TripleClicked (info : WidgetInfo)
  | TextSelectionChanged (info : WidgetInfo)
  | ValueChanged (info : WidgetInfo)
  deriving DecidableEq, Repr

/-- The `match e { … => info }` in `update_platform`
(`src/bridge.rs` lines 118–125). -/
def OutputEvent.info : OutputEvent → WidgetInfo
  | .Clicked info => info
  | .DoubleClicked info => info
  | .FocusGained info => info
  | .TripleClicked info => info
  | .TextSelectionChanged info => info
  | .ValueChanged info => info

/-- `egui::TexturesDelta`: the per-frame texture delta. -/
structure TexturesDelta where
  free : List TextureId := []
  set : List (TextureId × ImageDelta) := []
  deriving DecidableEq, Repr

/-- `egui::FullOutput` as consumed by `UnityContext::update` and `end`:
repaint delay (`Duration`, modelled in integer milliseconds so that
`is_zero`/`as_millis` are exact), platform-output events, and the texture
delta.  The tessellated shapes are carried separately in `EngineFrame`. -/
structure FullOutput where
  repaint_after : Nat := 0
  platform_events : List OutputEvent := []
  textures_delta : TexturesDelta := {}
  deriving DecidableEq, Repr

/-- One frame's behavior of the opaque egui `Context` (an external
collaborator): what `end_frame()` returns, what
`tessellate(output.shapes)` returns, and what `wants_keyboard_input()`
returns. -/
structure EngineFrame where
  output : FullOutput := {}
  tessellated : List ClippedPrimitive := []
  wants_keyboard : Bool := false
  deriving DecidableEq, Repr

/-- One invocation crossing out of `UnityContext::update`: the engine calls
(`begin_frame`, `App::update`, `end_frame`) and the host callbacks of the
`UnityInitializer` table, with the scalar arguments the wrapper functions
compute (pixel/vertex pointers are not modelled). -/
inductive Call where
  | beginFrame (input : RawInput)
  | appUpdate
  | endFrame
  | showKeyboard (visible : Bool) (text : String)
  | beginPaint
  | remTexture (id : Nat)
  | setTexture (id : Nat) (offset_x offset_y width height filter_mode : Nat)
  | paintMesh (texture_id : Nat) (vertex_count index_count : Nat)
      (clip : EguiRect)
  | endPaint
  deriving DecidableEq, Repr

/-- The mutable state of `UnityContext` that the modelled claims touch: the
retained IME text (`src/bridge.rs` line 54).  The egui `Context`, the app
and the callback table are modelled as parameters of `update`. -/
structure UCtx where
  text : String := ""
  deriving DecidableEq, Repr

/-- `UnityContext::new` (`src/bridge.rs` lines 65–78): the retained text
starts empty (`text: "".into()`). -/
def UnityContext.new : UCtx := { text := "" }

/-- `UnityContext::update_platform` (`src/bridge.rs` lines 116–133): scan
the platform-output events in order; every `TextEdit` event carrying a
current text value overwrites the retained text. -/
def update_platform (c : UCtx) (platform : List OutputEvent) : UCtx :=
  platform.foldl
    (fun c e =>
      match (OutputEvent.info e).typ, (OutputEvent.info e).current_text_value with
      | .TextEdit, some text => { c with text := text }
      | _, _ => c)
    c

/-- `UnityContext::rem_texture` (`src/bridge.rs` lines 166–169). -/
def rem_texture (id : TextureId) : Call :=
  .remTexture (texture_id_to_u64 id)

/-- `UnityContext::set_texture` (`src/bridge.rs` lines 136–163): encode the
id, map the filter to `1`/`2`, default the offset to `(0,0)`, take the
image's size. -/
def set_texture (id : TextureId) (image : ImageDelta) : Call :=
  let id := texture_id_to_u64 id
  let filter_mode : Nat :=
    match image.minification with
    | .Nearest => 1
    | .Linear => 2
  let off : Nat × Nat :=
    match image.pos with
    | some pos => pos
    | _ => (0, 0)
  let dims : Nat × Nat :=
    match image.image with
    | .Color size => size
    | .Font size => size
  .setTexture id off.1 off.2 dims.1 dims.2 filter_mode

/-- `UnityContext::paint_mesh` (`src/bridge.rs` lines 177–197): a mesh
primitive becomes one `paint_mesh` host call; a callback primitive hits
`unimplemented!("callback not supported")`, i.e. panics. -/
def paint_mesh (cp : ClippedPrimitive) : Outcome Call :=
  match cp.primitive with
  | .Mesh mesh =>
    .ok (.paintMesh (texture_id_to_u64 mesh.texture_id)
      mesh.vertices.length mesh.indices.length cp.clip_rect)
  | .Callback => .panicked "callback not supported"

/-- The `for cp in cps { self.paint_mesh(cp); }` loop (`src/bridge.rs` lines
109–111): the host calls issued before any panic, and the panic message if
one occurred. -/
def paintAll : List ClippedPrimitive → List Call × Option String
  | [] => ([], none)
  | cp :: rest =>
    match paint_mesh cp with
    | .ok c =>
      let r := paintAll rest
      (c :: r.1, r.2)
    | .panicked m => ([], some m)

end UnityEgui

namespace UnityEgui

/-- `UnityContext::show_keyboard` (`src/bridge.rs` lines 204–210): deliver
the flag together with the retained text. -/
def show_keyboard (c : UCtx) (visible : Bool) : Call :=
  .showKeyboard visible c.text

/-- `UnityContext::update` (`src/bridge.rs` lines 91–114), with the opaque
collaborators as parameters: `decoded` is the protobuf decode result of the
incoming buffer, `appOutcome` the behavior of `self.app.update(&self.context)`
(an external `App` that may panic), `eng` the egui context's behavior for
this frame.  Returns the call's outcome (`Ok(())` or an unwound panic), the
`UnityContext` state after the call, and the ordered trace of engine/host
calls made.  The `?` on `parse_input` in the source cannot return early
(`parse_input` panics instead of returning an error value), so the only
early exits are the panic unwinds and the nonzero `repaint_after` check. -/
def UnityContext.update (c : UCtx) (decoded : Except String PbInput)
    (appOutcome : Outcome Unit) (eng : EngineFrame) :
    Outcome Unit × UCtx × List Call :=
  match parse_input decoded with
  | .panicked m => (.panicked m, c, [])
  | .ok input =>
    match appOutcome with
    | .panicked m => (.panicked m, c, [.beginFrame input, .appUpdate])
    | .ok _ =>
      let output := eng.output
      if output.repaint_after ≠ 0 then
        (.ok (), c, [.beginFrame input, .appUpdate, .endFrame])
      else
        let c := update_platform c output.platform_events
        let pre : List Call :=
          [.beginFrame input, .appUpdate, .endFrame,
           show_keyboard c eng.wants_keyboard, .beginPaint]
          ++ output.textures_delta.free.map rem_texture
          ++ output.textures_delta.set.map fun p => set_texture p.1 p.2
        let painted := paintAll eng.tessellated
        match painted.2 with
        | some m => (.panicked m, c, pre ++ painted.1)
        | none => (.ok (), c, pre ++ painted.1 ++ [.endPaint])

/-- The FFI entry point `update` from `demo/src/lib.rs` (lines 42–55), in
its non-destroy branch: `if let Err(err) = app.update(input) { eprint!(…) }`.
A returned `Err` value would be logged and swallowed; there is no
`catch_unwind`, so an unwinding panic crosses the `extern "C"` boundary
unchanged. -/
def ffi_update (c : UCtx) (decoded : Except String PbInput)
    (appOutcome : Outcome Unit) (eng : EngineFrame) :
    Outcome Unit × UCtx × List Call :=
  match UnityContext.update c decoded appOutcome eng with
  | (.ok _, c, tr) => (.ok (), c, tr)
  | (.panicked m, c, tr) => (.panicked m, c, tr)

/-- Wire `proto::output::Texture` (fields from `src/lib.rs` lines 258–283;
the image byte payload is modelled by its dimensions, the pixel bytes being
produced by the external color/font conversions). -/
structure PbTexture where
  id : PbTextureId := {}
  texture_filter : Nat := 0
  pos_x : Nat := 0
  pos_y : Nat := 0
  image_width : Nat := 0
  image_height : Nat := 0
  deriving DecidableEq, Repr

/-- Wire `proto::output::Mesh`. -/
structure PbMesh where
  indices : List Nat := []
  texture_id : PbTextureId := {}
  vertices : List Vertex := []
  deriving DecidableEq, Repr

/-- Wire `proto::output::ClippedPrimitive`. -/
structure PbClippedPrimitive where
  clip_rect : Option PbRect := none
  tag : Nat := 0
  mesh : Option PbMesh := none
  deriving DecidableEq, Repr

/-- Wire `proto::output::Output`. -/
structure PbOutput where
  repaint_after : Nat := 0
  texture_set : List PbTexture := []
  texture_free : List PbTextureId := []
  primitives : List PbClippedPrimitive := []
  deriving DecidableEq, Repr

/-- `rect_from_native_to_pb` from `src/lib.rs` (lines 223–232). -/
def rect_from_native_to_pb (rect : EguiRect) : PbRect :=
  { min := some { x := rect.min.x, y := rect.min.y },
    max := some { x := rect.max.x, y := rect.max.y } }

/-- The per-texture body of the `texture_set` loop in `end` (`src/lib.rs`
lines 258–283). -/
def encode_texture (id : TextureId) (texture : ImageDelta) : PbTexture :=
  let pbid := texture_id_from_native_to_pb id
  let filter : Nat :=
    match texture.minification with
    | .Nearest => 1
    | .Linear => 2
  let pos : Nat × Nat :=
    match texture.pos with
    | some pos => pos
    | none => (0, 0)
  let dims : Nat × Nat :=
    match texture.image with
    | .Color size => size
    | .Font size => size
  { id := pbid, texture_filter := filter, pos_x := pos.1, pos_y := pos.2,
    image_width := dims.1, image_height := dims.2 }

/-- The per-primitive body of the `primitives` loop in `end` (`src/lib.rs`
lines 292–333).  For a mesh the source fills a local `pb_mesh` (indices,
texture id, vertices) but never attaches it to `pb_cp`, so the encoded
primitive carries `tag = 1`, the clip rectangle, and no mesh message; a
callback primitive hits `unimplemented!("callback not supported")`. -/
def encode_primitive (cp : ClippedPrimitive) : Outcome PbClippedPrimitive :=
  match cp.primitive with
  | .Mesh _ =>
    .ok { clip_rect := some (rect_from_native_to_pb cp.clip_rect),
          tag := 1, mesh := none }
  | .Callback => .panicked "callback not supported"

/-- The `for cp in clipped { … }` loop of `end`: encoded primitives before
any panic, and the panic message if one occurred. -/
def encodeAll : List ClippedPrimitive → List PbClippedPrimitive × Option String
  | [] => ([], none)
  | cp :: rest =>
    match encode_primitive cp with
    | .ok p =>
      let r := encodeAll rest
      (p :: r.1, r.2)
    | .panicked m => ([], some m)

/-- The wire encoder `end` from `src/lib.rs` (lines 254–341), with the
engine collaborators as parameters (`output` is what `CONTEXT.end_frame()`
returned, `tessellated` what `CONTEXT.tessellate(output.shapes)` returned).
Field order in the source: `texture_set` is filled by iterating
`output.textures_delta.set` in order, `texture_free` by mapping
`output.textures_delta.free` in order, `primitives` by iterating the
tessellated list in order. -/
def end_encode (output : FullOutput) (tessellated : List ClippedPrimitive) :
    Outcome PbOutput :=
  let texture_set := output.textures_delta.set.map fun p => encode_texture p.1 p.2
  let texture_free := output.textures_delta.free.map texture_id_from_native_to_pb
  let encoded := encodeAll tessellated
  match encoded.2 with
  | some m => .panicked m
  | none =>
    .ok { repaint_after := output.repaint_after,
          texture_set := texture_set,
          texture_free := texture_free,
          primitives := encoded.1 }

end UnityEgui

namespace UnityEgui

lemma pushEvents_eq (events : List PbEvent) (acc : List EguiEvent) :
    pushEvents acc events = acc ++ events.filterMap event_from_pb_to_native := by
  induction events generalizing acc with
  | nil => simp [pushEvents]
  | cons e rest ih =>
    simp only [pushEvents, List.foldl_cons] at ih ⊢
    cases h : event_from_pb_to_native e with
    | none => simpa [List.filterMap_cons, h] using ih acc
    | some ev => simpa [List.filterMap_cons, h] using ih (acc ++ [ev])

lemma rawInputOfPb_events (pb : PbInput) :
    (rawInputOfPb pb).events = pb.events.filterMap event_from_pb_to_native := by
  simp only [rawInputOfPb]
  split_ifs <;> simp [pushEvents_eq]

lemma rawInputOfPb_time (pb : PbInput) :
    (rawInputOfPb pb).time = if pb.time > 0 then some pb.time else none := by
  simp only [rawInputOfPb]
  split_ifs <;> rfl

lemma rawInputOfPb_pixels_per_point (pb : PbInput) :
    (rawInputOfPb pb).pixels_per_point =
      if pb.pixels_per_point > 0 then some pb.pixels_per_point else none := by
  simp only [rawInputOfPb]
  split_ifs <;> rfl

lemma rawInputOfPb_max_texture_side (pb : PbInput) :
    (rawInputOfPb pb).max_texture_side =
      if pb.max_texture_side > 0 then some pb.max_texture_side.toNat else none := by
  simp only [rawInputOfPb]
  split_ifs <;> rfl

lemma decoded_events_drop (pb : PbInput) (pre post : List PbEvent) (e : PbEvent)
    (hev : pb.events = pre ++ e :: post)
    (hnone : event_from_pb_to_native e = none) :
    (rawInputOfPb pb).events =
      pre.filterMap event_from_pb_to_native
        ++ post.filterMap event_from_pb_to_native := by
  rw [rawInputOfPb_events, hev, List.filterMap_append, List.filterMap_cons, hnone]

end UnityEgui

namespace UnityEgui

/-- The host call a single clipped primitive produces, when it produces one
(`none` for the unsupported callback primitive). -/
def paint_call? (cp : ClippedPrimitive) : Option Call :=
  match paint_mesh cp with
  | .ok c => some c
  | .panicked _ => none

/-- The wire primitive a single clipped primitive encodes to, when it
encodes to one. -/
def encode_primitive? (cp : ClippedPrimitive) : Option PbClippedPrimitive :=
  match encode_primitive cp with
  | .ok p => some p
  | .panicked _ => none

lemma paintAll_no_callback (l : List ClippedPrimitive)
    (h : ∀ cp ∈ l, cp.primitive ≠ Primitive.Callback) :
    paintAll l = (l.filterMap paint_call?, none) := by
  induction l with
  | nil => rfl
  | cons cp rest ih =>
    cases hp : cp.primitive with
    | Callback => exact absurd hp (h cp (by simp))
    | Mesh m =>
      have := ih fun c hc => h c (List.mem_cons_of_mem _ hc)
      simp [paintAll, paint_mesh, paint_call?, hp, this]

lemma paintAll_callback_panics (l : List ClippedPrimitive)
    (h : ∃ cp ∈ l, cp.primitive = Primitive.Callback) :
    (paintAll l).2 = some "callback not supported" := by
  induction l with
  | nil => simp at h
  | cons cp rest ih =>
    cases hp : cp.primitive with
    | Callback => simp [paintAll, paint_mesh, hp]
    | Mesh m =>
      obtain ⟨c, hc, hcb⟩ := h
      rcases List.mem_cons.mp hc with rfl | hmem
      · rw [hp] at hcb; exact absurd hcb (by simp)
      · simp [paintAll, paint_mesh, hp]
        exact ih ⟨c, hmem, hcb⟩

lemma endPaint_not_mem_paintAll (l : List ClippedPrimitive) :
    Call.endPaint ∉ (paintAll l).1 := by
  induction l with
  | nil => simp [paintAll]
  | cons cp rest ih =>
    cases hp : cp.primitive with
    | Callback => simp [paintAll, paint_mesh, hp]
    | Mesh m => simp [paintAll, paint_mesh, hp, ih]

lemma encodeAll_no_callback (l : List ClippedPrimitive)
    (h : ∀ cp ∈ l, cp.primitive ≠ Primitive.Callback) :
    encodeAll l = (l.filterMap encode_primitive?, none) := by
  induction l with
  | nil => rfl
  | cons cp rest ih =>
    cases hp : cp.primitive with
    | Callback => exact absurd hp (h cp (by simp))
    | Mesh m =>
      have := ih fun c hc => h c (List.mem_cons_of_mem _ hc)
      simp [encodeAll, encode_primitive, encode_primitive?, hp, this]

lemma encodeAll_callback_panics (l : List ClippedPrimitive)
    (h : ∃ cp ∈ l, cp.primitive = Primitive.Callback) :
    (encodeAll l).2 = some "callback not supported" := by
  induction l with
  | nil => simp at h
  | cons cp rest ih =>
    cases hp : cp.primitive with
    | Callback => simp [encodeAll, encode_primitive, hp]
    | Mesh m =>
      obtain ⟨c, hc, hcb⟩ := h
      rcases List.mem_cons.mp hc with rfl | hmem
      · rw [hp] at hcb; exact absurd hcb (by simp)
      · simp [encodeAll, encode_primitive, hp]
        exact ih ⟨c, hmem, hcb⟩

/-- C1: the claim says encoding an engine-managed texture id and a user id
round-trips with its discrimination and that the two encoded id spaces are
disjoint in either encoding.  On the code this is false for the `u64`
callback encoding: `texture_id_to_u64` computes `id << 1` for a managed id
but `id << (1 + 1)` for a user id (Rust parses `id << 1 + 1` with `+`
first), so both images consist of multiples of two and `Managed 2` and
`User 1` collide on the value `4`.  The tagged wire encoding
`texture_id_from_native_to_pb` does keep the two inputs apart. -/
theorem c1_texture_id_u64_collision :
    texture_id_to_u64 (.Managed 2) = texture_id_to_u64 (.User 1) ∧
    texture_id_to_u64 (.User 1) = 4 ∧
    texture_id_from_native_to_pb (.Managed 2)
      ≠ texture_id_from_native_to_pb (.User 1) :=
  ⟨rfl, rfl, by decide⟩

/-- C2: the claim says a buffer that is not a well-formed wire `Input`
message makes `update` return a `DecodeError` as an error result.  On the
code a decode failure is a panic (`parse_input` unwraps the protobuf
result), so the whole call unwinds: no error value is returned, the update
cycle is aborted, the trace is empty (`begin_frame` is never reached) and
the `UnityContext` state is untouched. -/
theorem c2_decode_failure_panics_before_begin_frame
    (c : UCtx) (err : String) (appOutcome : Outcome Unit) (eng : EngineFrame) :
    UnityContext.update c (.error err) appOutcome eng
      = (.panicked err, c, []) := rfl

/-- C3 counterexample: a fault injected inside the application's update pass
is not caught at the FFI boundary — the demo `update` entry point's outcome
is the unwound panic itself, not an error status code. -/
theorem c3_counterexample :
    (ffi_update UnityContext.new (.ok {}) (.panicked "injected") {}).1
      = .panicked "injected" := rfl

/-- C3 (amended): a fault in the application's update pass propagates out of
the FFI entry point uncaught (the demo boundary handles only returned error
values, and there is no `catch_unwind`); the `UnityContext` state is left
exactly as it was, so a subsequent update call on the same handle with a
non-faulting application succeeds and produces valid (here empty) output. -/
theorem c3_fault_propagates_uncaught
    (c : UCtx) (pb : PbInput) (m : String) (eng : EngineFrame) :
    ffi_update c (.ok pb) (.panicked m) eng
        = (.panicked m, c, [.beginFrame (rawInputOfPb pb), .appUpdate]) ∧
    (∀ (pb2 : PbInput) (eng2 : EngineFrame), eng2.output.repaint_after ≠ 0 →
      ffi_update c (.ok pb2) (.ok ()) eng2
        = (.ok (), c, [.beginFrame (rawInputOfPb pb2), .appUpdate, .endFrame])) := by
  refine ⟨rfl, fun pb2 eng2 h => ?_⟩
  simp [ffi_update, UnityContext.update, parse_input, h]

/-- Witness for C3's amended theorem at a concrete injected fault and a
concrete follow-up frame. -/
theorem c3_witness :
    ffi_update UnityContext.new (.ok {}) (.panicked "boom") {}
        = (.panicked "boom", UnityContext.new,
           [.beginFrame (rawInputOfPb {}), .appUpdate]) ∧
    ffi_update UnityContext.new (.ok {}) (.ok ())
        { output := { repaint_after := 16 } }
        = (.ok (), UnityContext.new,
           [.beginFrame (rawInputOfPb {}), .appUpdate, .endFrame]) :=
  ⟨(c3_fault_propagates_uncaught UnityContext.new {} "boom" {}).1,
   (c3_fault_propagates_uncaught UnityContext.new {} "boom" {}).2 {}
     { output := { repaint_after := 16 } } (by decide)⟩

/-- C4: when `end_frame` yields a nonzero repaint-after duration, `update`
returns `Ok(())` and the trace contains only the engine-internal calls —
no `begin_paint`, no texture free or upsert, no `paint_mesh`, no
`end_paint` (and no `show_keyboard`): zero delivery calls for that cycle. -/
theorem c4_repaint_nonzero_empty_success
    (c : UCtx) (pb : PbInput) (eng : EngineFrame)
    (h : eng.output.repaint_after ≠ 0) :
    UnityContext.update c (.ok pb) (.ok ()) eng =
      (.ok (), c, [.beginFrame (rawInputOfPb pb), .appUpdate, .endFrame]) := by
  simp [UnityContext.update, parse_input, h]

/-- Witness for C4 at a concrete frame with a 5 ms repaint delay. -/
theorem c4_witness :
    UnityContext.update UnityContext.new (.ok {}) (.ok ())
        { output := { repaint_after := 5 } } =
      (.ok (), UnityContext.new,
       [.beginFrame (rawInputOfPb {}), .appUpdate, .endFrame]) :=
  c4_repaint_nonzero_empty_success UnityContext.new {}
    { output := { repaint_after := 5 } } (by decide)

end UnityEgui

namespace UnityEgui

/-- C5: within a single frame's delivery, all texture frees come strictly
before all texture upserts, all upserts strictly before all draw
primitives, each group in the order the engine produced it — in callback
mode the trace of `UnityContext::update` is exactly the begin-paint
bracket, the frees in order, the upserts in order, the primitives in order
and the end-paint bracket; in batch mode the wire `Output` of `end` carries
the three groups as order-preserving maps of the engine's lists. -/
theorem c5_delivery_order
    (c : UCtx) (pb : PbInput) (eng : EngineFrame)
    (hz : eng.output.repaint_after = 0)
    (hm : ∀ cp ∈ eng.tessellated, cp.primitive ≠ Primitive.Callback) :
    (UnityContext.update c (.ok pb) (.ok ()) eng).2.2 =
      [.beginFrame (rawInputOfPb pb), .appUpdate, .endFrame,
       show_keyboard (update_platform c eng.output.platform_events)
         eng.wants_keyboard,
       .beginPaint]
      ++ eng.output.textures_delta.free.map rem_texture
      ++ eng.output.textures_delta.set.map (fun p => set_texture p.1 p.2)
      ++ eng.tessellated.filterMap paint_call?
      ++ [.endPaint] ∧
    end_encode eng.output eng.tessellated =
      .ok { repaint_after := eng.output.repaint_after,
            texture_set :=
              eng.output.textures_delta.set.map fun p => encode_texture p.1 p.2,
            texture_free :=
              eng.output.textures_delta.free.map texture_id_from_native_to_pb,
            primitives := eng.tessellated.filterMap encode_primitive? } := by
  constructor
  · simp [UnityContext.update, parse_input, hz, paintAll_no_callback _ hm]
  · simp [end_encode, encodeAll_no_callback _ hm]

/-- A concrete frame for the C5 witness: two frees, two upserts, two mesh
primitives. -/
def engFrameC5 : EngineFrame :=
  { output :=
      { repaint_after := 0,
        textures_delta :=
          { free := [.Managed 1, .User 3],
            set := [(.Managed 1, { minification := .Linear }),
                    (.User 2, { pos := some (4, 4) })] } },
    tessellated :=
      [{ primitive := .Mesh { texture_id := .Managed 1, indices := [0, 1, 2] } },
       { primitive := .Mesh { texture_id := .User 2 } }] }

/-- Witness for C5 at the concrete frame `engFrameC5`. -/
theorem c5_witness :
    (UnityContext.update UnityContext.new (.ok {}) (.ok ()) engFrameC5).2.2 =
      [.beginFrame (rawInputOfPb {}), .appUpdate, .endFrame,
       show_keyboard (update_platform UnityContext.new
           engFrameC5.output.platform_events)
         engFrameC5.wants_keyboard,
       .beginPaint]
      ++ engFrameC5.output.textures_delta.free.map rem_texture
      ++ engFrameC5.output.textures_delta.set.map (fun p => set_texture p.1 p.2)
      ++ engFrameC5.tessellated.filterMap paint_call?
      ++ [.endPaint] ∧
    end_encode engFrameC5.output engFrameC5.tessellated =
      .ok { repaint_after := engFrameC5.output.repaint_after,
            texture_set :=
              engFrameC5.output.textures_delta.set.map
                fun p => encode_texture p.1 p.2,
            texture_free :=
              engFrameC5.output.textures_delta.free.map
                texture_id_from_native_to_pb,
            primitives := engFrameC5.tessellated.filterMap encode_primitive? } :=
  c5_delivery_order UnityContext.new {} engFrameC5 rfl (by decide)

/-- C6: a per-event decode failure (unrecognized enum tag or missing
required sub-field, i.e. `event_from_pb_to_native` returns `None`) is
non-fatal — that event alone is dropped from the decoded frame and all
other events appear in their original relative order. -/
theorem c6_bad_event_dropped_order_preserved
    (pb : PbInput) (pre post : List PbEvent) (e : PbEvent)
    (hev : pb.events = pre ++ e :: post)
    (hbad : event_from_pb_to_native e = none) :
    (rawInputOfPb pb).events =
      pre.filterMap event_from_pb_to_native
        ++ post.filterMap event_from_pb_to_native :=
  decoded_events_drop pb pre post e hev hbad

/-- A wire event whose tag was recognized as COPY. -/
def evCopy : PbEvent := { et := some .COPY }

/-- A wire event whose tag was recognized as CUT. -/
def evCut : PbEvent := { et := some .CUT }

/-- A wire event whose numeric tag was not a known `EventType` value
(`enum_value()` returned `Err`). -/
def evBadTag : PbEvent := { et := none }

/-- Witness for C6: three events in, the middle one carrying an
unrecognized tag, two events out, order preserved. -/
theorem c6_witness :
    event_from_pb_to_native evBadTag = none ∧
    (rawInputOfPb { events := [evCopy, evBadTag, evCut] }).events =
      [evCopy].filterMap event_from_pb_to_native
        ++ [evCut].filterMap event_from_pb_to_native ∧
    (rawInputOfPb { events := [evCopy, evBadTag, evCut] }).events =
      [.Copy, .Cut] :=
  ⟨rfl,
   c6_bad_event_dropped_order_preserved
     { events := [evCopy, evBadTag, evCut] } [evCopy] [evCut] evBadTag rfl rfl,
   by decide⟩

/-- Modelled from the spec: how the engine (egui, an external collaborator
whose code is not under `src/`) consumes the decoded frame's
`pixels_per_point` — "absent optional numeric fields … must NOT overwrite
the engine's last-known value — they mean no change": an unset field keeps
the engine's currently configured scale. -/
def applyScale (current : ℚ) (input : RawInput) : ℚ :=
  input.pixels_per_point.getD current

/-- C7: a numeric presence field carrying the sentinel (≤ 0) is decoded to
"unset" (`None`), not to zero or a default — for `time`,
`pixels_per_point` and `max_texture_side` alike — so feeding the sentinel
through two consecutive update cycles leaves the engine's previously
configured scale unchanged. -/
theorem c7_sentinel_leaves_engine_value
    (pb : PbInput) (s : ℚ) :
    (pb.time ≤ 0 → (rawInputOfPb pb).time = none) ∧
    (pb.pixels_per_point ≤ 0 → (rawInputOfPb pb).pixels_per_point = none) ∧
    (pb.max_texture_side ≤ 0 → (rawInputOfPb pb).max_texture_side = none) ∧
    (∀ pb2 : PbInput, pb.pixels_per_point ≤ 0 → pb2.pixels_per_point ≤ 0 →
      applyScale (applyScale s (rawInputOfPb pb)) (rawInputOfPb pb2) = s) := by
  refine ⟨fun h => ?_, fun h => ?_, fun h => ?_, fun pb2 h1 h2 => ?_⟩
  · rw [rawInputOfPb_time, if_neg (by omega)]
  · rw [rawInputOfPb_pixels_per_point, if_neg (not_lt.mpr h)]
  · rw [rawInputOfPb_max_texture_side, if_neg (by omega)]
  · simp [applyScale, rawInputOfPb_pixels_per_point,
      if_neg (not_lt.mpr h1), if_neg (not_lt.mpr h2)]

/-- A wire input whose numeric presence fields all carry sentinel values
(`time = 0`, `pixels_per_point = -1`, `max_texture_side = -3`). -/
def pbSentinel : PbInput := { time := 0, pixels_per_point := -1, max_texture_side := -3 }

/-- Witness for C7 at `pbSentinel` with a previously configured scale 2. -/
theorem c7_witness :
    (rawInputOfPb pbSentinel).time = none ∧
    (rawInputOfPb pbSentinel).pixels_per_point = none ∧
    (rawInputOfPb pbSentinel).max_texture_side = none ∧
    applyScale (applyScale 2 (rawInputOfPb pbSentinel)) (rawInputOfPb pbSentinel)
      = 2 :=
  ⟨(c7_sentinel_leaves_engine_value pbSentinel 2).1 (by norm_num [pbSentinel]),
   (c7_sentinel_leaves_engine_value pbSentinel 2).2.1 (by norm_num [pbSentinel]),
   (c7_sentinel_leaves_engine_value pbSentinel 2).2.2.1 (by norm_num [pbSentinel]),
   (c7_sentinel_leaves_engine_value pbSentinel 2).2.2.2 pbSentinel
     (by norm_num [pbSentinel]) (by norm_num [pbSentinel])⟩

end UnityEgui

namespace UnityEgui

/-- C8: a frame output containing an unsupported primitive kind (a custom
host-side render-callback primitive) is a hard error for that call: the
dispatch hits `unimplemented!("callback not supported")` so `update`
unwinds with that message rather than returning success, the frame's
`end_paint` bracket is never delivered (no silently degraded frame), and
the wire encoder `end` fails the same way. -/
theorem c8_unsupported_primitive_hard_error
    (c : UCtx) (pb : PbInput) (eng : EngineFrame)
    (hz : eng.output.repaint_after = 0)
    (hcb : ∃ cp ∈ eng.tessellated, cp.primitive = Primitive.Callback) :
    (UnityContext.update c (.ok pb) (.ok ()) eng).1
        = .panicked "callback not supported" ∧
    Call.endPaint ∉ (UnityContext.update c (.ok pb) (.ok ()) eng).2.2 ∧
    end_encode eng.output eng.tessellated
        = .panicked "callback not supported" := by
  have hp := paintAll_callback_panics eng.tessellated hcb
  refine ⟨?_, ?_, ?_⟩
  · simp [UnityContext.update, parse_input, hz, hp]
  · simp [UnityContext.update, parse_input, hz, hp, show_keyboard,
      rem_texture, set_texture, endPaint_not_mem_paintAll]
  · simp [end_encode, encodeAll_callback_panics _ hcb]

/-- A frame whose tessellation contains one mesh and one unsupported
callback primitive. -/
def engFrameC8 : EngineFrame :=
  { output := { repaint_after := 0 },
    tessellated :=
      [{ primitive := .Mesh { texture_id := .Managed 0 } },
       { primitive := .Callback }] }

/-- Witness for C8 at the concrete frame `engFrameC8`. -/
theorem c8_witness :
    (UnityContext.update UnityContext.new (.ok {}) (.ok ()) engFrameC8).1
        = .panicked "callback not supported" ∧
    Call.endPaint ∉ (UnityContext.update UnityContext.new (.ok {}) (.ok ())
        engFrameC8).2.2 ∧
    end_encode engFrameC8.output engFrameC8.tessellated
        = .panicked "callback not supported" :=
  c8_unsupported_primitive_hard_error UnityContext.new {} engFrameC8 rfl
    (by decide)

/-- C9: an event whose recognized wire tag is `TOUCH` maps to no native
event — it is dropped from the decoded sequence exactly like an
unrecognized tag would be, with the remaining events unaffected — even
though `TOUCH` is a recognized variant distinct from the none/unknown
value `ET_NONE`. -/
theorem c9_touch_events_dropped
    (e : PbEvent) (pb : PbInput) (pre post : List PbEvent)
    (ht : e.et = some EventType.TOUCH) :
    event_from_pb_to_native e = none ∧
    EventType.TOUCH ≠ EventType.ET_NONE ∧
    (pb.events = pre ++ e :: post →
      (rawInputOfPb pb).events =
        pre.filterMap event_from_pb_to_native
          ++ post.filterMap event_from_pb_to_native) := by
  have hnone : event_from_pb_to_native e = none := by
    simp [event_from_pb_to_native, ht]
  exact ⟨hnone, by decide,
    fun hev => decoded_events_drop pb pre post e hev hnone⟩

/-- A wire event whose tag was recognized as TOUCH. -/
def evTouch : PbEvent := { et := some .TOUCH }

/-- Witness for C9: three events in, the middle one a TOUCH, two events
out, order preserved. -/
theorem c9_witness :
    event_from_pb_to_native evTouch = none ∧
    EventType.TOUCH ≠ EventType.ET_NONE ∧
    (rawInputOfPb { events := [evCopy, evTouch, evCut] }).events =
      [evCopy].filterMap event_from_pb_to_native
        ++ [evCut].filterMap event_from_pb_to_native ∧
    (rawInputOfPb { events := [evCopy, evTouch, evCut] }).events =
      [.Copy, .Cut] :=
  ⟨(c9_touch_events_dropped evTouch { events := [evCopy, evTouch, evCut] }
      [evCopy] [evCut] rfl).1,
   (c9_touch_events_dropped evTouch { events := [evCopy, evTouch, evCut] }
      [evCopy] [evCut] rfl).2.1,
   (c9_touch_events_dropped evTouch { events := [evCopy, evTouch, evCut] }
      [evCopy] [evCut] rfl).2.2 rfl,
   by decide⟩

end UnityEgui

namespace UnityEgui

/-- The text a platform-output event contributes to the retained IME text:
the current text value of a `TextEdit` event, nothing otherwise. -/
def textEditValue (e : OutputEvent) : Option String :=
  match (OutputEvent.info e).typ, (OutputEvent.info e).current_text_value with
  | .TextEdit, some t => some t
  | _, _ => none

lemma getD_or (a b : Option α) (x : α) :
    (a.or b).getD x = a.getD (b.getD x) := by
  cases a <;> rfl

lemma getLast?_cons_getD (l : List α) (t0 x : α) :
    ((t0 :: l).getLast?).getD x = (l.getLast?).getD t0 := by
  cases l with
  | nil => rfl
  | cons a l =>
    rw [List.getLast?_cons_cons]
    cases h : (a :: l).getLast? with
    | none => simp at h
    | some y => rfl

lemma update_platform_text (evs : List OutputEvent) (c : UCtx) :
    (update_platform c evs).text
      = ((evs.filterMap textEditValue).getLast?).getD c.text := by
  induction evs generalizing c with
  | nil => rfl
  | cons e rest ih =>
    have hbody : update_platform c (e :: rest)
        = update_platform
            (match textEditValue e with
             | some t => { c with text := t }
             | none => c) rest := by
      simp only [update_platform, List.foldl_cons]
      congr 1
      cases h1 : (OutputEvent.info e).typ <;>
        cases h2 : (OutputEvent.info e).current_text_value <;>
          simp [textEditValue, h1, h2]
    rw [hbody, List.filterMap_cons]
    cases h : textEditValue e with
    | none => exact ih c
    | some t => rw [ih { c with text := t }, getLast?_cons_getD]

lemma foldl_update_platform_text (frames : List (List OutputEvent)) (c : UCtx) :
    ((frames.foldl update_platform c).text)
      = (((frames.flatten).filterMap textEditValue).getLast?).getD c.text := by
  induction frames generalizing c with
  | nil => rfl
  | cons f fs ih =>
    rw [List.foldl_cons, ih, List.flatten_cons, List.filterMap_append,
      List.getLast?_append, getD_or, update_platform_text]

/-- C10: the text delivered to `show_keyboard` is stateful across painting
cycles: starting from the empty string at `UnityContext::new`, after any
sequence of painting cycles the retained text equals the current text
value of the most recent `TextEdit` platform-output event seen so far (the
empty string if none occurred); a cycle whose platform output carries no
`TextEdit` event with a text value leaves it unchanged, and the painting
path of `update` delivers exactly this retained text in its
`show_keyboard` call. -/
theorem c10_keyboard_text_stateful :
    UnityContext.new.text = "" ∧
    (∀ (frames : List (List OutputEvent)),
      (frames.foldl update_platform UnityContext.new).text
        = (((frames.flatten).filterMap textEditValue).getLast?).getD "") ∧
    (∀ (c : UCtx) (evs : List OutputEvent),
      evs.filterMap textEditValue = [] → (update_platform c evs).text = c.text) ∧
    (∀ (c : UCtx) (evs : List OutputEvent) (t : String),
      (evs.filterMap textEditValue).getLast? = some t →
        (update_platform c evs).text = t) ∧
    (∀ (c : UCtx) (pb : PbInput) (eng : EngineFrame),
      eng.output.repaint_after = 0 →
        Call.showKeyboard eng.wants_keyboard
            (update_platform c eng.output.platform_events).text
          ∈ (UnityContext.update c (.ok pb) (.ok ()) eng).2.2) := by
  refine ⟨rfl, fun frames => foldl_update_platform_text frames UnityContext.new,
    fun c evs h => ?_, fun c evs t h => ?_, fun c pb eng hz => ?_⟩
  · rw [update_platform_text, h]; rfl
  · rw [update_platform_text, h]; rfl
  · cases hpa : (paintAll eng.tessellated).2 <;>
      simp [UnityContext.update, parse_input, hz, hpa, show_keyboard]

/-- A `TextEdit` value-changed platform event carrying the text `"hi"`. -/
def evTextEditHi : OutputEvent :=
  .ValueChanged { typ := .TextEdit, current_text_value := some "hi" }

/-- A clicked-button platform event carrying no text. -/
def evButtonClick : OutputEvent := .Clicked { typ := .Button }

/-- Witness for C10: after a cycle that edits the text to `"hi"` and a
cycle with no text-edit event, the retained text is still `"hi"`, and a
concrete painting cycle delivers it through `show_keyboard`. -/
theorem c10_witness :
    UnityContext.new.text = "" ∧
    ([[evTextEditHi], [evButtonClick]].foldl update_platform
        UnityContext.new).text
      = ((([[evTextEditHi], [evButtonClick]].flatten).filterMap
          textEditValue).getLast?).getD "" ∧
    (update_platform { text := "hi" } [evButtonClick]).text = "hi" ∧
    (update_platform UnityContext.new [evTextEditHi]).text = "hi" ∧
    Call.showKeyboard false
        (update_platform { text := "hi" }
          ({ output :=
              { repaint_after := 0, platform_events := [evButtonClick] } } :
            EngineFrame).output.platform_events).text
      ∈ (UnityContext.update { text := "hi" } (.ok {}) (.ok ())
          { output :=
              { repaint_after := 0, platform_events := [evButtonClick] } }).2.2 :=
  ⟨c10_keyboard_text_stateful.1,
   c10_keyboard_text_stateful.2.1 [[evTextEditHi], [evButtonClick]],
   c10_keyboard_text_stateful.2.2.1 { text := "hi" } [evButtonClick] (by decide),
   c10_keyboard_text_stateful.2.2.2.1 UnityContext.new [evTextEditHi] "hi"
     (by decide),
   c10_keyboard_text_stateful.2.2.2.2 { text := "hi" } {}
     { output := { repaint_after := 0, platform_events := [evButtonClick] } }
     rfl⟩

end UnityEgui
